import Mathlib

/-!
# RAGENativeUI.Helper: the export surface and the custom texture registry

A shallow embedding of `Source/RAGENativeUI.Helper/RAGENativeUI.Helper.cpp`.

* Every exported function is a function on `ProcessState`, written from the
  body of the export.  The operations of `Memory` that the exports call are
  the fields of `MemoryApi`, so a statement about an export holds for every
  implementation of `Memory`.
* Pointers are addresses (`Nat`, with `0` the null pointer).  A pointer that
  the export itself reads through (`dstRect`) is an `Option` holding the
  value it points to, `none` being the null pointer.  An export that reads
  through a null pointer has no result (`none`).
* `Memory.cpp`, `Memory.h` and `Globals.h` are not part of the sources at
  hand.  The section `Memory` below models those operations from the
  specification, over an engine that is a parameter.
-/

namespace RAGENativeUI

/-! ## Types of the export surface -/

/-- The platform rectangle `RECT`: left, top, right, bottom. -/
structure RECT where
  left : Int
  top : Int
  right : Int
  bottom : Int
deriving DecidableEq, Repr

/-- The record `Memory::TextureDesc` written for a texture of an engine
dictionary: engine texture handle, name bytes, width, height. -/
structure TextureDesc where
  texture : Nat
  name : List Nat
  width : Nat
  height : Nat
deriving DecidableEq, Repr

/-- The record `Memory::CustomTextureDesc` written for a custom texture:
name hash, width, height, updatable flag. -/
structure CustomTextureDesc where
  nameHash : Nat
  width : Nat
  height : Nat
  updatable : Bool
deriving DecidableEq, Repr

/-- The type `int32` of `Headers.h` (`typedef int int32;`): the integers a
32-bit signed `int` holds. -/
abbrev int32 : Type := { v : Int // -2 ^ 31 ≤ v ∧ v < 2 ^ 31 }

/-- The declarations of `Memory.h` that the exports use, over the state `σ`
of everything outside `Globals` (the statics of `Memory` and the engine).
Each operation takes the arguments of its C++ signature and returns its
result with the state it leaves.  `ms_pAllocator` reads the static pointer
`Memory::ms_pAllocator` (`0` when null); `allocator_Allocate this size` and
`allocator_Free this ptr` are the virtual calls made through that pointer. -/
structure MemoryApi (σ : Type) where
  Init : σ → σ
  ms_pAllocator : σ → Nat
  allocator_Allocate : Nat → Int → σ → Nat × σ
  allocator_Free : Nat → Nat → σ → σ
  DoesTextureDictionaryExist : List Nat → σ → Bool × σ
  GetNumberOfTexturesFromDictionary : List Nat → σ → Nat × σ
  GetTexturesFromDictionary : List Nat → Nat → σ → List TextureDesc × σ
  DoesCustomTextureExist : Nat → σ → Bool × σ
  CreateCustomTexture : List Nat → Nat → Nat → List Nat → Bool → σ → Bool × σ
  DeleteCustomTexture : Nat → σ → σ
  UpdateCustomTexture : Nat → Option (List Nat) → RECT → σ → σ
  GetNumberOfCustomTextures : σ → Nat × σ
  GetCustomTextures : Nat → σ → List CustomTextureDesc × σ

/-- Modelled from the spec: the declaration of `Globals::MenusOpened`
(`Globals.h` is not among the sources), a single 32-bit signed integer at
module scope.  `ProcessState` is the state the exports act on: the state seen
by `Memory`, and that variable. -/
structure ProcessState (σ : Type) where
  mem : σ
  MenusOpened : int32
deriving DecidableEq

/-! ## The exports, from `RAGENativeUI.Helper.cpp` -/

section Exports

variable {σ : Type}

/-- Export `Init`: `Memory::Init();`. -/
def Init (M : MemoryApi σ) (s : ProcessState σ) : ProcessState σ :=
  { s with mem := M.Init s.mem }

/-- Export `Allocate`: `return Memory::ms_pAllocator->Allocate(size);`.
The call goes through the pointer: there is no result when it is null. -/
def Allocate (M : MemoryApi σ) (size : Int) (s : ProcessState σ) :
    Option (Nat × ProcessState σ) :=
  if M.ms_pAllocator s.mem = 0 then none
  else
    let r := M.allocator_Allocate (M.ms_pAllocator s.mem) size s.mem
    some (r.1, { s with mem := r.2 })

/-- Export `Free`: `Memory::ms_pAllocator->Free(ptr);`.
The call goes through the pointer: there is no result when it is null. -/
def Free (M : MemoryApi σ) (ptr : Nat) (s : ProcessState σ) :
    Option (ProcessState σ) :=
  if M.ms_pAllocator s.mem = 0 then none
  else some { s with mem := M.allocator_Free (M.ms_pAllocator s.mem) ptr s.mem }

/-- Export `DoesTextureDictionaryExist`. -/
def DoesTextureDictionaryExist (M : MemoryApi σ) (name : List Nat)
    (s : ProcessState σ) : Bool × ProcessState σ :=
  let r := M.DoesTextureDictionaryExist name s.mem
  (r.1, { s with mem := r.2 })

/-- Export `GetNumberOfTexturesFromDictionary`. -/
def GetNumberOfTexturesFromDictionary (M : MemoryApi σ) (name : List Nat)
    (s : ProcessState σ) : Nat × ProcessState σ :=
  let r := M.GetNumberOfTexturesFromDictionary name s.mem
  (r.1, { s with mem := r.2 })

/-- Export `GetTexturesFromDictionary`; the result is the list of records
written at `outTextureDescs`. -/
def GetTexturesFromDictionary (M : MemoryApi σ) (name : List Nat)
    (outTextureDescs : Nat) (s : ProcessState σ) :
    List TextureDesc × ProcessState σ :=
  let r := M.GetTexturesFromDictionary name outTextureDescs s.mem
  (r.1, { s with mem := r.2 })

/-- Export `DoesCustomTextureExist`. -/
def DoesCustomTextureExist (M : MemoryApi σ) (nameHash : Nat)
    (s : ProcessState σ) : Bool × ProcessState σ :=
  let r := M.DoesCustomTextureExist nameHash s.mem
  (r.1, { s with mem := r.2 })

/-- Export `CreateCustomTexture`. -/
def CreateCustomTexture (M : MemoryApi σ) (name : List Nat) (width height : Nat)
    (pixelData : List Nat) (updatable : Bool) (s : ProcessState σ) :
    Bool × ProcessState σ :=
  let r := M.CreateCustomTexture name width height pixelData updatable s.mem
  (r.1, { s with mem := r.2 })

/-- Export `DeleteCustomTexture`. -/
def DeleteCustomTexture (M : MemoryApi σ) (nameHash : Nat)
    (s : ProcessState σ) : ProcessState σ :=
  { s with mem := M.DeleteCustomTexture nameHash s.mem }

/-- Export `UpdateCustomTexture`:
`Memory::UpdateCustomTexture(nameHash, srcData, *dstRect);`.
The argument `*dstRect` is read before the call: there is no result when
`dstRect` is null. -/
def UpdateCustomTexture (M : MemoryApi σ) (nameHash : Nat)
    (srcData : Option (List Nat)) (dstRect : Option RECT)
    (s : ProcessState σ) : Option (ProcessState σ) :=
  match dstRect with
  | none => none
  | some r => some { s with mem := M.UpdateCustomTexture nameHash srcData r s.mem }

/-- Export `GetNumberOfCustomTextures`. -/
def GetNumberOfCustomTextures (M : MemoryApi σ) (s : ProcessState σ) :
    Nat × ProcessState σ :=
  let r := M.GetNumberOfCustomTextures s.mem
  (r.1, { s with mem := r.2 })

/-- Export `GetCustomTextures`; the result is the list of records written at
`outTextureDescs`. -/
def GetCustomTextures (M : MemoryApi σ) (outTextureDescs : Nat)
    (s : ProcessState σ) : List CustomTextureDesc × ProcessState σ :=
  let r := M.GetCustomTextures outTextureDescs s.mem
  (r.1, { s with mem := r.2 })

/-- Export `Globals_GetMenusOpened`: `return Globals::MenusOpened;`. -/
def Globals_GetMenusOpened (s : ProcessState σ) : int32 × ProcessState σ :=
  (s.MenusOpened, s)

/-- Export `Globals_SetMenusOpened`: `Globals::MenusOpened = value;`. -/
def Globals_SetMenusOpened (value : int32) (s : ProcessState σ) :
    ProcessState σ :=
  { s with MenusOpened := value }

/-- The words of the specification for an export that is a stateless thunk:
run the operation on the state of `Memory`, hand back its result, and leave
everything else as it was. -/
def transparentThunk {α : Type} (op : σ → α × σ) (s : ProcessState σ) :
    α × ProcessState σ :=
  ((op s.mem).1, { mem := (op s.mem).2, MenusOpened := s.MenusOpened })

/-- A thunk for an operation that returns nothing. -/
def transparentThunkVoid (op : σ → σ) (s : ProcessState σ) : ProcessState σ :=
  { mem := op s.mem, MenusOpened := s.MenusOpened }

end Exports

/-! ## `Memory` and the engine, modelled from the specification -/

section Model

/-- Modelled from the spec: lowercasing of one narrow byte of a name
(`Memory.cpp` is not among the sources; section 4.5 step 1 hashes the
lowercased narrow bytes). -/
def toLowerByte (b : Nat) : Nat :=
  if 65 ≤ b ∧ b ≤ 90 then b + 32 else b

/-- Modelled from the spec: one round of the one-at-a-time hash on 32 bits. -/
def joaatStep (hash b : Nat) : Nat :=
  let h1 := (hash + b) % 2 ^ 32
  let h2 := (h1 + h1 * 2 ^ 10) % 2 ^ 32
  h2 ^^^ (h2 >>> 6)

/-- Modelled from the spec: the closing rounds of the one-at-a-time hash. -/
def joaatFinish (hash : Nat) : Nat :=
  let h1 := (hash + hash * 2 ^ 3) % 2 ^ 32
  let h2 := h1 ^^^ (h1 >>> 11)
  (h2 + h2 * 2 ^ 15) % 2 ^ 32

/-- Modelled from the spec: the 32-bit name hash, a Jenkins one-at-a-time
hash over the lowercased narrow bytes of the name (the hash function lives in
the missing `Memory.cpp`). -/
def joaat (name : List Nat) : Nat :=
  joaatFinish ((name.map toLowerByte).foldl joaatStep 0)

/-- One section of a loaded module of the host process. -/
structure ImageSection where
  base : Nat
  executable : Bool
  readable : Bool
  bytes : List Nat
deriving DecidableEq, Repr

/-- Modelled from the spec: does the pattern (exact byte or match-any tokens)
match at the start of the bytes (section 4.1; the scanner is not among the
sources). -/
def patternMatchesAt : List (Option Nat) → List Nat → Bool
  | [], _ => true
  | _ :: _, [] => false
  | none :: ps, _ :: bs => patternMatchesAt ps bs
  | some p :: ps, b :: bs => p == b && patternMatchesAt ps bs

/-- Modelled from the spec: offset of the lowest match of the pattern in the
bytes; a pattern longer than the remaining region does not match. -/
def findInBytes (pattern : List (Option Nat)) : List Nat → Option Nat
  | [] => none
  | b :: bs =>
    if patternMatchesAt pattern (b :: bs) then some 0
    else (findInBytes pattern bs).map (· + 1)

/-- Modelled from the spec: the pattern scanner.  The empty pattern is
rejected; only sections marked executable and readable are searched; the
result is the first matching address, or null (`0`). -/
def FindPattern (pattern : List (Option Nat)) : List ImageSection → Nat
  | [] => 0
  | sec :: rest =>
    if pattern = [] then 0
    else if sec.executable && sec.readable then
      match findInBytes pattern sec.bytes with
      | some off => sec.base + off
      | none => FindPattern pattern rest
    else FindPattern pattern rest

/-- The resolved symbol table of section 3: allocator pointer,
dictionary-store pointer and the engine functions, `0` when unresolved. -/
structure SymbolTable where
  ms_pAllocator : Nat
  dictionaryStore : Nat
  findDictByName : Nat
  findTextureInDict : Nat
  createTexture : Nat
  destroyTexture : Nat
deriving DecidableEq, Repr

/-- The byte patterns of the engine symbols; they are constants of the
missing sources and stay a parameter. -/
structure SymbolPatterns where
  allocator : List (Option Nat)
  dictionaryStore : List (Option Nat)
  findDictByName : List (Option Nat)
  findTextureInDict : List (Option Nat)
  createTexture : List (Option Nat)
  destroyTexture : List (Option Nat)

/-- The engine of the host process: its allocator (virtual calls on the
object at `this`), its dictionary lookup, and texture creation, destruction
and pixel write.  The engine is outside the repository; it is a parameter,
with `ε` the state of the engine.  `CreateTexture` returns the texture
handle, `0` when the engine refuses. -/
structure Engine (ε : Type) where
  Allocate : Nat → Int → ε → Nat × ε
  Free : Nat → Nat → ε → ε
  FindDictByName : List Nat → ε → Option (List TextureDesc)
  CreateTexture : Nat → Nat → List Nat → Bool → ε → Nat × ε
  DestroyTexture : Nat → ε → ε
  WriteTexture : Nat → Option (List Nat) → RECT → ε → ε

/-- A custom texture entry of the registry (section 3): name hash, width,
height, updatable flag and the handle of the engine texture it owns. -/
structure CustomTextureEntry where
  nameHash : Nat
  width : Nat
  height : Nat
  updatable : Bool
  texture : Nat
deriving DecidableEq, Repr

/-- The descriptor emitted for an entry. -/
def CustomTextureEntry.desc (t : CustomTextureEntry) : CustomTextureDesc :=
  { nameHash := t.nameHash, width := t.width, height := t.height,
    updatable := t.updatable }

/-- The state seen by `Memory`: its statics (symbol table and custom texture
registry, in iteration order) and the state of the engine. -/
structure MemState (ε : Type) where
  symbols : SymbolTable
  registry : List CustomTextureEntry
  engine : ε
deriving DecidableEq

variable {ε : Type}

/-- The name hashes present in the registry, in iteration order. -/
def MemState.keys (s : MemState ε) : List Nat :=
  s.registry.map (·.nameHash)

namespace Memory

/-- Modelled from the spec: `Memory::Init` (missing `Memory.cpp`) resolves
every engine symbol with the pattern scanner over the loaded image and
stores the results in the symbol table (sections 3 and 4.3). -/
def Init (image : List ImageSection) (pats : SymbolPatterns)
    (s : MemState ε) : MemState ε :=
  { s with symbols :=
      { ms_pAllocator := FindPattern pats.allocator image
        dictionaryStore := FindPattern pats.dictionaryStore image
        findDictByName := FindPattern pats.findDictByName image
        findTextureInDict := FindPattern pats.findTextureInDict image
        createTexture := FindPattern pats.createTexture image
        destroyTexture := FindPattern pats.destroyTexture image } }

/-- Modelled from the spec: `Memory::DoesTextureDictionaryExist` (missing
`Memory.cpp`): true iff a dictionary of that name is loaded. -/
def DoesTextureDictionaryExist (E : Engine ε) (name : List Nat)
    (s : MemState ε) : Bool :=
  (E.FindDictByName name s.engine).isSome

/-- Modelled from the spec: `Memory::GetNumberOfTexturesFromDictionary`
(missing `Memory.cpp`): the number of textures, zero without dictionary. -/
def GetNumberOfTexturesFromDictionary (E : Engine ε) (name : List Nat)
    (s : MemState ε) : Nat :=
  match E.FindDictByName name s.engine with
  | some texs => texs.length
  | none => 0

/-- Modelled from the spec: `Memory::GetTexturesFromDictionary` (missing
`Memory.cpp`): the records written, in the order of the dictionary. -/
def GetTexturesFromDictionary (E : Engine ε) (name : List Nat)
    (s : MemState ε) : List TextureDesc :=
  match E.FindDictByName name s.engine with
  | some texs => texs
  | none => []

/-- Modelled from the spec: `Memory::DoesCustomTextureExist` (missing
`Memory.cpp`): registry lookup by hash. -/
def DoesCustomTextureExist (nameHash : Nat) (s : MemState ε) : Bool :=
  s.registry.any (fun t => t.nameHash == nameHash)

/-- Modelled from the spec: `Memory::CreateCustomTexture` (missing
`Memory.cpp`), steps 1 to 5 of section 4.5: hash the name; a present hash
gives false without side effects; a refusal of the engine gives false and no
entry; otherwise the entry is stored and the result is true. -/
def CreateCustomTexture (E : Engine ε) (name : List Nat) (width height : Nat)
    (pixelData : List Nat) (updatable : Bool) (s : MemState ε) :
    Bool × MemState ε :=
  let nameHash := joaat name
  if DoesCustomTextureExist nameHash s then (false, s)
  else
    let r := E.CreateTexture width height pixelData updatable s.engine
    if r.1 = 0 then (false, { s with engine := r.2 })
    else
      (true,
        { s with
          engine := r.2
          registry := s.registry ++
            [{ nameHash := nameHash, width := width, height := height,
               updatable := updatable, texture := r.1 }] })

/-- Modelled from the spec: `Memory::DeleteCustomTexture` (missing
`Memory.cpp`): locate the entry; absent, nothing happens; otherwise the
engine texture is destroyed and the entry leaves the registry. -/
def DeleteCustomTexture (E : Engine ε) (nameHash : Nat) (s : MemState ε) :
    MemState ε :=
  match s.registry.find? (fun t => t.nameHash == nameHash) with
  | none => s
  | some t =>
    { s with
      engine := E.DestroyTexture t.texture s.engine
      registry := s.registry.filter (fun u => u.nameHash != nameHash) }

/-- Modelled from the spec: `Memory::UpdateCustomTexture` (missing
`Memory.cpp`): locate the entry; absent, nothing happens; otherwise the
source pixels are written into the engine texture within the rectangle. -/
def UpdateCustomTexture (E : Engine ε) (nameHash : Nat)
    (srcData : Option (List Nat)) (dstRect : RECT) (s : MemState ε) :
    MemState ε :=
  match s.registry.find? (fun t => t.nameHash == nameHash) with
  | none => s
  | some t => { s with engine := E.WriteTexture t.texture srcData dstRect s.engine }

/-- Modelled from the spec: `Memory::GetNumberOfCustomTextures` (missing
`Memory.cpp`): the registry size. -/
def GetNumberOfCustomTextures (s : MemState ε) : Nat :=
  s.registry.length

/-- Modelled from the spec: `Memory::GetCustomTextures` (missing
`Memory.cpp`): one descriptor per entry, in registry iteration order. -/
def GetCustomTextures (s : MemState ε) : List CustomTextureDesc :=
  s.registry.map CustomTextureEntry.desc

end Memory

/-- The modelled `Memory`, packaged as the interface the exports call. -/
def specMemory (E : Engine ε) (image : List ImageSection)
    (pats : SymbolPatterns) : MemoryApi (MemState ε) where
  Init := Memory.Init image pats
  ms_pAllocator := fun s => s.symbols.ms_pAllocator
  allocator_Allocate := fun this size s =>
    ((E.Allocate this size s.engine).1,
      { s with engine := (E.Allocate this size s.engine).2 })
  allocator_Free := fun this ptr s =>
    { s with engine := E.Free this ptr s.engine }
  DoesTextureDictionaryExist := fun name s =>
    (Memory.DoesTextureDictionaryExist E name s, s)
  GetNumberOfTexturesFromDictionary := fun name s =>
    (Memory.GetNumberOfTexturesFromDictionary E name s, s)
  GetTexturesFromDictionary := fun name _ s =>
    (Memory.GetTexturesFromDictionary E name s, s)
  DoesCustomTextureExist := fun nameHash s =>
    (Memory.DoesCustomTextureExist nameHash s, s)
  CreateCustomTexture := Memory.CreateCustomTexture E
  DeleteCustomTexture := Memory.DeleteCustomTexture E
  UpdateCustomTexture := Memory.UpdateCustomTexture E
  GetNumberOfCustomTextures := fun s => (Memory.GetNumberOfCustomTextures s, s)
  GetCustomTextures := fun _ s => (Memory.GetCustomTextures s, s)

end Model

/-! ## Sequences of registry operations -/

section Sequences

variable {σ ε : Type}

/-- One registry operation of a call sequence: a `CreateCustomTexture` call
with its arguments, or a `DeleteCustomTexture` call with its hash. -/
inductive RegistryOp where
  | create (name : List Nat) (width height : Nat) (pixelData : List Nat)
      (updatable : Bool)
  | delete (nameHash : Nat)
deriving DecidableEq, Repr

/-- Run one call through the exports. -/
def runOp (M : MemoryApi σ) : RegistryOp → ProcessState σ → ProcessState σ
  | .create name w h px u, s => (CreateCustomTexture M name w h px u s).2
  | .delete k, s => DeleteCustomTexture M k s

/-- Run a call sequence through the exports, first call first. -/
def runOps (M : MemoryApi σ) : List RegistryOp → ProcessState σ → ProcessState σ
  | [], s => s
  | op :: ops, s => runOps M ops (runOp M op s)

end Sequences

/-! ## A mock engine, for concrete runs -/

section Mock

/-- A texture of the mock engine: handle, size and BGRA pixel bytes. -/
structure MockTexture where
  handle : Nat
  width : Nat
  height : Nat
  pixels : List Nat
deriving DecidableEq, Repr

/-- The state of the mock engine: live heap blocks (address and size, most
recent first), next free address, textures, last handle given out. -/
structure MockEngine where
  blocks : List (Nat × Nat)
  nextAddress : Nat
  textures : List MockTexture
  lastHandle : Nat
deriving DecidableEq, Repr

/-- Mock allocation: sizes below one are refused with null. -/
def mockAllocate (_this : Nat) (size : Int) (e : MockEngine) : Nat × MockEngine :=
  if size ≤ 0 then (0, e)
  else
    (e.nextAddress,
      { e with
        blocks := (e.nextAddress, size.toNat) :: e.blocks
        nextAddress := e.nextAddress + size.toNat })

/-- Mock release by address: the block at `ptr`, if any, is released. -/
def mockFree (_this : Nat) (ptr : Nat) (e : MockEngine) : MockEngine :=
  { e with blocks := e.blocks.filter (fun b => b.1 != ptr) }

/-- Mock texture creation: refused (null) unless the pixel data is exactly
`width * height * 4` bytes of a non-empty texture. -/
def mockCreateTexture (w h : Nat) (px : List Nat) (_u : Bool) (e : MockEngine) :
    Nat × MockEngine :=
  if w * h = 0 ∨ px.length ≠ w * h * 4 then (0, e)
  else
    (e.lastHandle + 1,
      { e with
        textures := e.textures ++
          [{ handle := e.lastHandle + 1, width := w, height := h, pixels := px }]
        lastHandle := e.lastHandle + 1 })

/-- Mock texture destruction. -/
def mockDestroyTexture (handle : Nat) (e : MockEngine) : MockEngine :=
  { e with textures := e.textures.filter (fun t => t.handle != handle) }

/-- The byte of a texture at index `i` after a write of `src` within `r`:
inside the rectangle it comes from the tightly packed source, outside it is
the old byte `b`. -/
def blitByte (w : Nat) (src : List Nat) (r : RECT) (i b : Nat) : Nat :=
  let x : Int := ((i / 4) % w : Nat)
  let y : Int := ((i / 4) / w : Nat)
  if r.left ≤ x ∧ x < r.right ∧ r.top ≤ y ∧ y < r.bottom then
    src.getD (((y - r.top) * (r.right - r.left) + (x - r.left)).toNat * 4 + i % 4) b
  else b

/-- Mock pixel write into the texture with that handle. -/
def mockWriteTexture (handle : Nat) (src : Option (List Nat)) (r : RECT)
    (e : MockEngine) : MockEngine :=
  match src with
  | none => e
  | some bytes =>
    { e with
      textures := e.textures.map (fun t =>
        if t.handle = handle then
          { t with pixels := t.pixels.enum.map (fun ib => blitByte t.width bytes r ib.1 ib.2) }
        else t) }

/-- The mock engine; it has no texture dictionaries loaded. -/
def mockEngine : Engine MockEngine where
  Allocate := mockAllocate
  Free := mockFree
  FindDictByName := fun _ _ => none
  CreateTexture := mockCreateTexture
  DestroyTexture := mockDestroyTexture
  WriteTexture := mockWriteTexture

/-- A mock engine with nothing allocated. -/
def mockEngine0 : MockEngine :=
  { blocks := [], nextAddress := 4096, textures := [], lastHandle := 0 }

/-- A host image with one executable section. -/
def mockImage : List ImageSection :=
  [{ base := 4096, executable := true, readable := true,
     bytes := [72, 139, 5, 1, 2, 3, 4, 195, 72, 141, 13, 9, 9, 9, 9, 232] }]

/-- Patterns that all resolve in `mockImage`. -/
def mockPatterns : SymbolPatterns where
  allocator := [some 72, some 139, some 5]
  dictionaryStore := [some 72, some 141, some 13]
  findDictByName := [some 232]
  findTextureInDict := [some 195, some 72]
  createTexture := [some 5, none, none, none, none, some 195]
  destroyTexture := [some 13, none, some 9]

/-- The counter value zero. -/
def zero32 : int32 := ⟨0, by decide⟩

/-- A fresh module image: nothing resolved, empty registry, counter zero. -/
def freshState : ProcessState (MemState MockEngine) :=
  { mem :=
      { symbols := { ms_pAllocator := 0, dictionaryStore := 0, findDictByName := 0,
                     findTextureInDict := 0, createTexture := 0, destroyTexture := 0 }
        registry := []
        engine := mockEngine0 }
    MenusOpened := zero32 }

/-- The modelled `Memory` over the mock engine and the mock image. -/
def mockMemory : MemoryApi (MemState MockEngine) :=
  specMemory mockEngine mockImage mockPatterns

/-- The name `foo`. -/
def nameFoo : List Nat := [102, 111, 111]

/-- The 2 by 2 pixel block of scenario E1. -/
def pixelsE1 : List Nat :=
  [255, 0, 0, 255, 0, 255, 0, 255, 0, 0, 255, 255, 255, 255, 255, 255]

/-- The module after `Init` over the mock engine. -/
def readyState : ProcessState (MemState MockEngine) :=
  Init mockMemory freshState

/-- The name `bar`. -/
def nameBar : List Nat := [98, 97, 114]

/-- One black pixel, alpha 255. -/
def pixelBlack : List Nat := [0, 0, 0, 255]

end Mock

/-! ## The exports: counter, thunks, pointers -/

section ExportTheorems

variable {σ : Type}

/-- C8: for every 32-bit signed integer `v` and every prior state,
`Globals_SetMenusOpened(v)` followed by `Globals_GetMenusOpened()` returns
exactly `v`; nothing about the state, initialization included, is assumed. -/
theorem Globals_get_after_set (v : int32) (s : ProcessState σ) :
    (Globals_GetMenusOpened (Globals_SetMenusOpened v s)).1 = v := rfl

/-- C10: `Globals_GetMenusOpened` returns the current counter and leaves the
whole state as it was, so a second call returns the same value; and
`Globals_SetMenusOpened(v)` changes the counter only. -/
theorem Globals_frame (v : int32) (s : ProcessState σ) :
    (Globals_GetMenusOpened s).1 = s.MenusOpened ∧
    (Globals_GetMenusOpened s).2 = s ∧
    (Globals_GetMenusOpened (Globals_GetMenusOpened s).2).1 =
      (Globals_GetMenusOpened s).1 ∧
    (Globals_SetMenusOpened v s).mem = s.mem ∧
    (Globals_SetMenusOpened v s).MenusOpened = v :=
  ⟨rfl, rfl, rfl, rfl, rfl⟩

/-- C9: every export other than `Init` and the two `Globals_` exports is a
transparent thunk over the operation of the same name, for every
implementation of `Memory`: same arguments in the same order, the result of
the operation handed back, the counter untouched, no check of its own.
`Allocate` and `Free` go through `ms_pAllocator` to the allocator (no result
through a null pointer), and `UpdateCustomTexture` passes the rectangle that
`dstRect` points to (no result for a null `dstRect`). -/
theorem exports_are_thunks (M : MemoryApi σ) (s : ProcessState σ)
    (name px : List Nat) (size : Int) (ptr out nameHash w h : Nat) (u : Bool)
    (src : Option (List Nat)) (dstRect : Option RECT) :
    Allocate M size s =
      (if M.ms_pAllocator s.mem = 0 then none
       else some (transparentThunk (M.allocator_Allocate (M.ms_pAllocator s.mem) size) s)) ∧
    Free M ptr s =
      (if M.ms_pAllocator s.mem = 0 then none
       else some (transparentThunkVoid (M.allocator_Free (M.ms_pAllocator s.mem) ptr) s)) ∧
    DoesTextureDictionaryExist M name s =
      transparentThunk (M.DoesTextureDictionaryExist name) s ∧
    GetNumberOfTexturesFromDictionary M name s =
      transparentThunk (M.GetNumberOfTexturesFromDictionary name) s ∧
    GetTexturesFromDictionary M name out s =
      transparentThunk (M.GetTexturesFromDictionary name out) s ∧
    DoesCustomTextureExist M nameHash s =
      transparentThunk (M.DoesCustomTextureExist nameHash) s ∧
    CreateCustomTexture M name w h px u s =
      transparentThunk (M.CreateCustomTexture name w h px u) s ∧
    DeleteCustomTexture M nameHash s =
      transparentThunkVoid (M.DeleteCustomTexture nameHash) s ∧
    UpdateCustomTexture M nameHash src dstRect s =
      dstRect.map (fun r => transparentThunkVoid (M.UpdateCustomTexture nameHash src r) s) ∧
    GetNumberOfCustomTextures M s =
      transparentThunk M.GetNumberOfCustomTextures s ∧
    GetCustomTextures M out s = transparentThunk (M.GetCustomTextures out) s := by
  refine ⟨rfl, rfl, rfl, rfl, rfl, rfl, rfl, rfl, ?_, rfl, rfl⟩
  cases dstRect <;> rfl

end ExportTheorems

/-! ## The modelled registry -/

section RegistryTheorems

variable {ε : Type}

/-- No entry is located when the hash is not a key of the registry. -/
theorem find?_eq_none_of_not_mem_keys (l : List CustomTextureEntry) (k : Nat)
    (hk : k ∉ l.map (·.nameHash)) :
    l.find? (fun t => t.nameHash == k) = none := by
  rw [List.find?_eq_none]
  intro t ht
  simp only [beq_iff_eq]
  intro heq
  exact hk (List.mem_map.mpr ⟨t, ht, heq⟩)

/-- Removing a hash that is not a key removes nothing. -/
theorem filter_eq_self_of_not_mem_keys (l : List CustomTextureEntry) (k : Nat)
    (hk : k ∉ l.map (·.nameHash)) :
    l.filter (fun u => u.nameHash != k) = l := by
  rw [List.filter_eq_self]
  intro t ht
  simp only [bne_iff_ne, ne_eq]
  intro heq
  exact hk (List.mem_map.mpr ⟨t, ht, heq⟩)

/-- After removal the hash is not a key. -/
theorem not_mem_keys_filter (l : List CustomTextureEntry) (k : Nat) :
    k ∉ (l.filter (fun u => u.nameHash != k)).map (·.nameHash) := by
  intro hmem
  obtain ⟨t, ht, heq⟩ := List.mem_map.mp hmem
  have := (List.mem_filter.mp ht).2
  simp [heq] at this

/-- Lookup by hash agrees with membership among the keys. -/
theorem DoesCustomTextureExist_iff (k : Nat) (s : MemState ε) :
    Memory.DoesCustomTextureExist k s = true ↔ k ∈ s.keys := by
  simp [Memory.DoesCustomTextureExist, MemState.keys, List.any_eq_true]

/-- The registry after `DeleteCustomTexture` is the old one without the
entries of that hash. -/
theorem DeleteCustomTexture_registry (E : Engine ε) (k : Nat) (s : MemState ε) :
    (Memory.DeleteCustomTexture E k s).registry =
      s.registry.filter (fun u => u.nameHash != k) := by
  unfold Memory.DeleteCustomTexture
  cases hfind : s.registry.find? (fun t => t.nameHash == k) with
  | none =>
    simp only
    symm
    rw [List.filter_eq_self]
    intro t ht
    have := (List.find?_eq_none.mp hfind) t ht
    simpa using this
  | some t => rfl

/-- `DeleteCustomTexture` on an absent hash changes nothing. -/
theorem DeleteCustomTexture_absent (E : Engine ε) (k : Nat) (s : MemState ε)
    (hk : k ∉ s.keys) : Memory.DeleteCustomTexture E k s = s := by
  unfold Memory.DeleteCustomTexture
  rw [find?_eq_none_of_not_mem_keys s.registry k hk]

/-- With distinct keys, removing a present hash removes exactly one entry. -/
theorem length_filter_of_mem_keys (l : List CustomTextureEntry) (k : Nat)
    (hnodup : (l.map (·.nameHash)).Nodup) (hk : k ∈ l.map (·.nameHash)) :
    (l.filter (fun u => u.nameHash != k)).length + 1 = l.length := by
  induction l with
  | nil => simp at hk
  | cons t l ih =>
    simp only [List.map_cons, List.nodup_cons] at hnodup
    by_cases heq : t.nameHash = k
    · have hk2 : k ∉ l.map (·.nameHash) := heq ▸ hnodup.1
      have hfil := filter_eq_self_of_not_mem_keys l k hk2
      simp [List.filter_cons, heq, hfil]
    · have hk2 : k ∈ l.map (·.nameHash) := by
        simp only [List.map_cons, List.mem_cons] at hk
        rcases hk with h | h
        · exact absurd h.symm heq
        · exact h
      have := ih hnodup.2 hk2
      simp [List.filter_cons, heq]
      omega

/-- Distinct keys stay distinct under `CreateCustomTexture`, whatever the
engine answers. -/
theorem CreateCustomTexture_keys_nodup (E : Engine ε) (name : List Nat) (w h : Nat)
    (px : List Nat) (u : Bool) (s : MemState ε) (hkeys : s.keys.Nodup) :
    (Memory.CreateCustomTexture E name w h px u s).2.keys.Nodup := by
  unfold Memory.CreateCustomTexture
  by_cases hex : Memory.DoesCustomTextureExist (joaat name) s = true
  · simpa [hex] using hkeys
  · have habsent : joaat name ∉ s.keys := fun hmem =>
      hex ((DoesCustomTextureExist_iff _ _).mpr hmem)
    by_cases hnull : (E.CreateTexture w h px u s.engine).1 = 0
    · simpa [hex, hnull, MemState.keys] using hkeys
    · simp only [hex, hnull, MemState.keys, Bool.false_eq_true, if_false, List.map_append,
        List.map_cons, List.map_nil]
      rw [List.nodup_append]
      refine ⟨hkeys, List.nodup_singleton _, ?_⟩
      intro a ha hb
      rw [List.mem_singleton] at hb
      exact habsent (hb ▸ ha)

/-- Distinct keys stay distinct under `DeleteCustomTexture`. -/
theorem DeleteCustomTexture_keys_nodup (E : Engine ε) (k : Nat) (s : MemState ε)
    (hkeys : s.keys.Nodup) : (Memory.DeleteCustomTexture E k s).keys.Nodup := by
  simp only [MemState.keys, DeleteCustomTexture_registry]
  exact List.Nodup.sublist (List.Sublist.map _ (List.filter_sublist _)) hkeys

/-- Every registry reached from distinct keys by `Create` and `Delete` calls
has distinct keys; so has every registry reached from the empty one. -/
theorem runOps_keys_nodup (E : Engine ε) (image : List ImageSection)
    (pats : SymbolPatterns) (ops : List RegistryOp) :
    ∀ s : ProcessState (MemState ε), s.mem.keys.Nodup →
      (runOps (specMemory E image pats) ops s).mem.keys.Nodup := by
  induction ops with
  | nil => intro s hs; exact hs
  | cons op ops ih =>
    intro s hs
    cases op with
    | create name w h px u =>
      exact ih _ (CreateCustomTexture_keys_nodup E name w h px u s.mem hs)
    | delete k =>
      exact ih _ (DeleteCustomTexture_keys_nodup E k s.mem hs)

/-- C3: for every registry with distinct keys and every hash `k`, a second
`DeleteCustomTexture(k)` changes nothing after the first; a call on an absent
hash leaves the state unchanged; the registry size goes down by exactly one
when `k` was present and by zero when it was absent. -/
theorem DeleteCustomTexture_idempotent (E : Engine ε) (image : List ImageSection)
    (pats : SymbolPatterns) (k : Nat) (s : ProcessState (MemState ε))
    (hkeys : s.mem.keys.Nodup) :
    DeleteCustomTexture (specMemory E image pats) k
        (DeleteCustomTexture (specMemory E image pats) k s) =
      DeleteCustomTexture (specMemory E image pats) k s ∧
    (k ∉ s.mem.keys → DeleteCustomTexture (specMemory E image pats) k s = s) ∧
    (k ∈ s.mem.keys →
      (GetNumberOfCustomTextures (specMemory E image pats)
          (DeleteCustomTexture (specMemory E image pats) k s)).1 + 1 =
        (GetNumberOfCustomTextures (specMemory E image pats) s).1) ∧
    (k ∉ s.mem.keys →
      (GetNumberOfCustomTextures (specMemory E image pats)
          (DeleteCustomTexture (specMemory E image pats) k s)).1 =
        (GetNumberOfCustomTextures (specMemory E image pats) s).1) := by
  have habsent : ∀ t : ProcessState (MemState ε), k ∉ t.mem.keys →
      DeleteCustomTexture (specMemory E image pats) k t = t := by
    intro t ht
    simp [DeleteCustomTexture, specMemory, DeleteCustomTexture_absent E k t.mem ht]
  refine ⟨?_, habsent s, ?_, ?_⟩
  · apply habsent
    simp only [DeleteCustomTexture, specMemory, MemState.keys,
      DeleteCustomTexture_registry]
    exact not_mem_keys_filter s.mem.registry k
  · intro hk
    simp only [GetNumberOfCustomTextures, DeleteCustomTexture, specMemory,
      Memory.GetNumberOfCustomTextures, DeleteCustomTexture_registry]
    exact length_filter_of_mem_keys s.mem.registry k hkeys hk
  · intro hk
    rw [habsent s hk]

/-- C1: from a registry without `hash(n)`, when the engine creates the
texture, the first `CreateCustomTexture(n, ...)` returns true, a second one
with any other arguments returns false and leaves the whole state as it was,
and the registry then holds exactly one entry for `hash(n)`, with the width,
height and updatable flag of the first call. -/
theorem CreateCustomTexture_collision (E : Engine ε) (image : List ImageSection)
    (pats : SymbolPatterns) (name : List Nat) (w1 h1 : Nat) (px1 : List Nat)
    (u1 : Bool) (w2 h2 : Nat) (px2 : List Nat) (u2 : Bool) (out : Nat)
    (s : ProcessState (MemState ε))
    (habsent : joaat name ∉ s.mem.keys)
    (hengine : (E.CreateTexture w1 h1 px1 u1 s.mem.engine).1 ≠ 0) :
    (CreateCustomTexture (specMemory E image pats) name w1 h1 px1 u1 s).1 = true ∧
    (CreateCustomTexture (specMemory E image pats) name w2 h2 px2 u2
        (CreateCustomTexture (specMemory E image pats) name w1 h1 px1 u1 s).2).1 =
      false ∧
    (CreateCustomTexture (specMemory E image pats) name w2 h2 px2 u2
        (CreateCustomTexture (specMemory E image pats) name w1 h1 px1 u1 s).2).2 =
      (CreateCustomTexture (specMemory E image pats) name w1 h1 px1 u1 s).2 ∧
    ((GetCustomTextures (specMemory E image pats) out
        (CreateCustomTexture (specMemory E image pats) name w2 h2 px2 u2
          (CreateCustomTexture (specMemory E image pats) name w1 h1 px1 u1 s).2).2).1.filter
        (fun d => d.nameHash == joaat name)) =
      [{ nameHash := joaat name, width := w1, height := h1, updatable := u1 }] := by
  have hnot : Memory.DoesCustomTextureExist (joaat name) s.mem = false := by
    rw [Bool.eq_false_iff, ne_eq, DoesCustomTextureExist_iff]
    exact habsent
  have hfirst : CreateCustomTexture (specMemory E image pats) name w1 h1 px1 u1 s =
      (true,
        { mem :=
            { s.mem with
              engine := (E.CreateTexture w1 h1 px1 u1 s.mem.engine).2
              registry := s.mem.registry ++
                [{ nameHash := joaat name, width := w1, height := h1,
                   updatable := u1,
                   texture := (E.CreateTexture w1 h1 px1 u1 s.mem.engine).1 }] },
          MenusOpened := s.MenusOpened }) := by
    simp [CreateCustomTexture, specMemory, Memory.CreateCustomTexture, hnot, hengine]
  have hsecond : ∀ t : ProcessState (MemState ε), joaat name ∈ t.mem.keys →
      CreateCustomTexture (specMemory E image pats) name w2 h2 px2 u2 t = (false, t) := by
    intro t ht
    have hyes : Memory.DoesCustomTextureExist (joaat name) t.mem = true :=
      (DoesCustomTextureExist_iff _ _).mpr ht
    simp [CreateCustomTexture, specMemory, Memory.CreateCustomTexture, hyes]
  rw [hfirst]
  simp only
  rw [hsecond _ (by simp [MemState.keys])]
  refine ⟨trivial, rfl, rfl, ?_⟩
  simp only [GetCustomTextures, specMemory, Memory.GetCustomTextures, List.map_append,
    List.filter_append, List.map_cons, List.map_nil, CustomTextureEntry.desc]
  have hold : (s.mem.registry.map CustomTextureEntry.desc).filter
      (fun d => d.nameHash == joaat name) = [] := by
    rw [List.filter_eq_nil_iff]
    intro d hd
    obtain ⟨t, ht, rfl⟩ := List.mem_map.mp hd
    simp only [CustomTextureEntry.desc, beq_iff_eq]
    intro heq
    exact habsent (List.mem_map.mpr ⟨t, ht, heq⟩)
  simp only [CustomTextureEntry.desc] at hold
  simp [hold]

/-- The name hash is a 32-bit value. -/
theorem joaat_lt (name : List Nat) : joaat name < 2 ^ 32 := by
  unfold joaat joaatFinish
  exact Nat.mod_lt _ (by norm_num)

/-- Names that differ only in the case of their letters hash alike. -/
theorem joaat_toLower (name : List Nat) :
    joaat (name.map toLowerByte) = joaat name := by
  have hidem : ∀ b, toLowerByte (toLowerByte b) = toLowerByte b := by
    intro b
    unfold toLowerByte
    split_ifs <;> omega
  simp [joaat, List.map_map, Function.comp_def, hidem]

/-! ## Concrete runs over the mock engine -/

/-- Scenario E1: after `Init`, creating `foo` returns true, the texture then
exists and the count is one. -/
theorem scenario_E1 :
    (CreateCustomTexture mockMemory nameFoo 2 2 pixelsE1 true readyState).1 = true ∧
    (DoesCustomTextureExist mockMemory (joaat nameFoo)
        (CreateCustomTexture mockMemory nameFoo 2 2 pixelsE1 true readyState).2).1 = true ∧
    (GetNumberOfCustomTextures mockMemory
        (CreateCustomTexture mockMemory nameFoo 2 2 pixelsE1 true readyState).2).1 = 1 := by
  refine ⟨by decide, by decide, by decide⟩

/-- Scenario E3: an update of `foo` with one black pixel in the rectangle
(0,0,1,1) rewrites pixel (0,0) and leaves the other pixels. -/
theorem scenario_E3 :
    (UpdateCustomTexture mockMemory (joaat nameFoo) (some pixelBlack)
        (some { left := 0, top := 0, right := 1, bottom := 1 })
        (CreateCustomTexture mockMemory nameFoo 2 2 pixelsE1 true readyState).2).map
      (fun t => t.mem.engine.textures.map (fun x => x.pixels)) =
      some [[0, 0, 0, 255, 0, 255, 0, 255, 0, 0, 255, 255, 255, 255, 255, 255]] := by
  decide

/-- Scenario E6: no dictionary of that name, so it does not exist and has
zero textures. -/
theorem scenario_E6 :
    (DoesTextureDictionaryExist mockMemory nameBar readyState).1 = false ∧
    (GetNumberOfTexturesFromDictionary mockMemory nameBar readyState).1 = 0 := by
  refine ⟨by decide, by decide⟩


/-- C1, instance: scenario E1 then E2 over the mock engine. -/
theorem CreateCustomTexture_collision_witness :
    joaat nameFoo ∉ readyState.mem.keys ∧
    (mockEngine.CreateTexture 2 2 pixelsE1 true readyState.mem.engine).1 ≠ 0 ∧
    ((CreateCustomTexture mockMemory nameFoo 2 2 pixelsE1 true readyState).1 = true ∧
     (CreateCustomTexture mockMemory nameFoo 1 1 pixelBlack false
        (CreateCustomTexture mockMemory nameFoo 2 2 pixelsE1 true readyState).2).1 =
       false ∧
     (CreateCustomTexture mockMemory nameFoo 1 1 pixelBlack false
        (CreateCustomTexture mockMemory nameFoo 2 2 pixelsE1 true readyState).2).2 =
       (CreateCustomTexture mockMemory nameFoo 2 2 pixelsE1 true readyState).2 ∧
     ((GetCustomTextures mockMemory 0
        (CreateCustomTexture mockMemory nameFoo 1 1 pixelBlack false
          (CreateCustomTexture mockMemory nameFoo 2 2 pixelsE1 true readyState).2).2).1.filter
        (fun d => d.nameHash == joaat nameFoo)) =
       [{ nameHash := joaat nameFoo, width := 2, height := 2, updatable := true }]) :=
  ⟨by decide, by decide,
    CreateCustomTexture_collision mockEngine mockImage mockPatterns nameFoo 2 2 pixelsE1
      true 1 1 pixelBlack false 0 readyState (by decide) (by decide)⟩

/-- C3, instance: scenario E4, `foo` deleted twice from the registry that
holds `foo` and `bar`. -/
theorem DeleteCustomTexture_idempotent_witness :
    (runOps mockMemory [.create nameFoo 2 2 pixelsE1 true,
        .create nameBar 1 1 pixelBlack false] readyState).mem.keys.Nodup ∧
    (DeleteCustomTexture mockMemory (joaat nameFoo)
        (DeleteCustomTexture mockMemory (joaat nameFoo)
          (runOps mockMemory [.create nameFoo 2 2 pixelsE1 true,
            .create nameBar 1 1 pixelBlack false] readyState)) =
      DeleteCustomTexture mockMemory (joaat nameFoo)
        (runOps mockMemory [.create nameFoo 2 2 pixelsE1 true,
          .create nameBar 1 1 pixelBlack false] readyState)) ∧
    (GetNumberOfCustomTextures mockMemory
        (DeleteCustomTexture mockMemory (joaat nameFoo)
          (runOps mockMemory [.create nameFoo 2 2 pixelsE1 true,
            .create nameBar 1 1 pixelBlack false] readyState))).1 + 1 =
      (GetNumberOfCustomTextures mockMemory
        (runOps mockMemory [.create nameFoo 2 2 pixelsE1 true,
          .create nameBar 1 1 pixelBlack false] readyState)).1 :=
  ⟨by decide,
    (DeleteCustomTexture_idempotent mockEngine mockImage mockPatterns (joaat nameFoo)
      (runOps mockMemory [.create nameFoo 2 2 pixelsE1 true,
        .create nameBar 1 1 pixelBlack false] readyState) (by decide)).1,
    (DeleteCustomTexture_idempotent mockEngine mockImage mockPatterns (joaat nameFoo)
      (runOps mockMemory [.create nameFoo 2 2 pixelsE1 true,
        .create nameBar 1 1 pixelBlack false] readyState) (by decide)).2.2.1 (by decide)⟩

end RegistryTheorems

end RAGENativeUI
